import Mathlib

/-
Verification of the map-ev-chargers route-normalization and viewport
station-synchronization layer.

Part A embeds `calculateEvRoute` (src/services/mapbox/evRouting.ts) together
with the connector-type mapping of the EV routing API route
(src/app/api/routes/ev/route.ts).  Part B embeds the station cache merge and
the debounced fetch coordinator of src/components/MapWrapper.tsx.

Numeric JSON values are copied verbatim by the code under study (no float
arithmetic is performed on them except integer sums), so they are modelled
as `Int`.  Coordinates are modelled as integer micro-degrees (degrees scaled
by 10^6), on which JavaScript's `toFixed(6)` is exact.
-/

/-! ## Part A: route normalization (evRouting.ts) -/

/-- Raw waypoint `metadata` object of the provider response.  Fields are
copied verbatim by `calculateEvRoute`; `type` is compared against the string
literal `charging-station`, `current_type` goes through `|| ''`. -/
structure RawMetadata where
  type : Option String
  name : String
  charge_time : Int
  charge_to : Int
  charge_at_arrival : Int
  plug_type : String
  current_type : Option String
  power_kw : Int
  station_id : String
  provider_names : Option (List String)
deriving DecidableEq

/-- Raw waypoint of the provider response.  `metadata` may be absent
(`waypoint.metadata &&` truthiness test in the source). -/
structure RawWaypoint where
  name : String
  location : Int × Int
  metadata : Option RawMetadata
deriving DecidableEq

/-- Raw `maneuver` object of a step.  Accessing `step.maneuver.location`
throws when `maneuver` is absent, so absence is tracked at the step level. -/
structure RawManeuver where
  location : Int × Int
  bearing_before : Int
  bearing_after : Int
  type : String
  modifier : Option String
  instruction : String
deriving DecidableEq

/-- Raw intersection record; the source maps its fields verbatim. -/
structure RawIntersection where
  location : Int × Int
  bearings : List Int
  entry : List Bool
  inIndex : Option Int
  outIndex : Option Int
deriving DecidableEq

/-- Raw step.  `maneuver` and `intersections` are the two member accesses of
the step mapping that throw a TypeError when the member is absent
(`step.maneuver.location`, `step.intersections.map`). -/
structure RawStep where
  distance : Int
  duration : Int
  geometry : String
  name : String
  mode : String
  maneuver : Option RawManeuver
  intersections : Option (List RawIntersection)
deriving DecidableEq

/-- Raw per-leg annotation arrays (source field name `annotation`). -/
structure RawAnnot where
  distance : List Int
  duration : List Int
  speed : List Int
  state_of_charge : Option (List Int)
deriving DecidableEq

/-- Raw leg.  `leg.steps.map` throws when `steps` is absent; `summary` goes
through `|| ''`; the annotation is guarded by a truthiness test. -/
structure RawLeg where
  distance : Int
  duration : Int
  summary : Option String
  steps : Option (List RawStep)
  annot : Option RawAnnot
deriving DecidableEq

/-- Raw route.  `route.legs.map` throws when `legs` is absent.  `waypoints`
is the fallback source of `waypointsSource`. -/
structure RawRoute where
  distance : Int
  duration : Int
  geometry : String
  legs : Option (List RawLeg)
  waypoints : Option (List RawWaypoint)
deriving DecidableEq

/-- Raw top-level response body: `data.routes`, `data.waypoints`. -/
structure RawData where
  routes : Option (List RawRoute)
  waypoints : Option (List RawWaypoint)
deriving DecidableEq

/-- Outcome of the `fetch` of `/api/routes/ev` as observed by
`calculateEvRoute`: a network failure (the `fetch` or `json()` promise
rejects), a non-2xx response (`!response.ok`, which makes the function throw
and land in its `catch`), or a parsed JSON body. -/
inductive FetchResult where
  | networkError : FetchResult
  | httpError (status : Nat) (errMsg : Option String) : FetchResult
  | ok (data : RawData) : FetchResult
deriving DecidableEq

/-- Normalized charging waypoint (interface `ChargingWaypoint` of
src/services/mapbox/types.ts). -/
structure ChargingWaypoint where
  type : String
  name : String
  chargeTime : Int
  chargeTo : Int
  chargeAtArrival : Int
  plugType : String
  currentType : String
  powerKw : Int
  stationId : String
  providerNames : Option (List String)
  location : Int × Int
deriving DecidableEq

/-- Normalized waypoint metadata (the `metadata` branch of the `waypoints`
mapping in `calculateEvRoute`). -/
structure EvWaypointMetadata where
  type : Option String
  name : String
  chargeTime : Int
  chargeTo : Int
  chargeAtArrival : Int
  plugType : String
  currentType : String
  powerKw : Int
  stationId : String
  providerNames : Option (List String)
deriving DecidableEq

/-- Normalized waypoint of an `EvRoute`. -/
structure EvWaypoint where
  name : String
  location : Int × Int
  metadata : Option EvWaypointMetadata
deriving DecidableEq

/-- Normalized maneuver. -/
structure EvManeuver where
  location : Int × Int
  bearingBefore : Int
  bearingAfter : Int
  type : String
  modifier : Option String
  instruction : String
deriving DecidableEq

/-- Normalized intersection. -/
structure EvIntersection where
  location : Int × Int
  bearings : List Int
  entry : List Bool
  inIndex : Option Int
  outIndex : Option Int
deriving DecidableEq

/-- Normalized step. -/
structure EvStep where
  distance : Int
  duration : Int
  geometry : String
  name : String
  mode : String
  maneuver : EvManeuver
  intersections : List EvIntersection
deriving DecidableEq

/-- Normalized per-leg annotation (source field name `annotation`). -/
structure EvAnnot where
  distance : List Int
  duration : List Int
  speed : List Int
  stateOfCharge : Option (List Int)
deriving DecidableEq

/-- Normalized leg. -/
structure EvLeg where
  distance : Int
  duration : Int
  summary : String
  steps : List EvStep
  annot : Option EvAnnot
deriving DecidableEq

/-- Normalized route (interface `EvRoute`). -/
structure EvRoute where
  distance : Int
  duration : Int
  geometry : String
  legs : List EvLeg
  waypoints : List EvWaypoint
  chargingWaypoints : List ChargingWaypoint
deriving DecidableEq

/-- Body of the `waypointsSource.forEach` loop of `calculateEvRoute`: a
waypoint contributes a `ChargingWaypoint` exactly when it has metadata whose
`type` is the literal `charging-station`; every field is copied verbatim
(`currentType` through `|| ''`). -/
def chargingOfRaw (w : RawWaypoint) : Option ChargingWaypoint :=
  match w.metadata with
  | some m =>
      if m.type = some "charging-station" then
        some { type := "charging-station"
               name := m.name
               chargeTime := m.charge_time
               chargeTo := m.charge_to
               chargeAtArrival := m.charge_at_arrival
               plugType := m.plug_type
               currentType := m.current_type.getD ""
               powerKw := m.power_kw
               stationId := m.station_id
               providerNames := m.provider_names
               location := w.location }
      else none
  | none => none

/-- The `waypoints` mapping of `calculateEvRoute` (field renaming only,
metadata copied when present). -/
def normalizeWaypoint (w : RawWaypoint) : EvWaypoint :=
  { name := w.name
    location := w.location
    metadata := w.metadata.map fun m =>
      { type := m.type
        name := m.name
        chargeTime := m.charge_time
        chargeTo := m.charge_to
        chargeAtArrival := m.charge_at_arrival
        plugType := m.plug_type
        currentType := m.current_type.getD ""
        powerKw := m.power_kw
        stationId := m.station_id
        providerNames := m.provider_names } }

/-- The intersection mapping of the step transform. -/
def normalizeIntersection (i : RawIntersection) : EvIntersection :=
  { location := i.location, bearings := i.bearings, entry := i.entry
    inIndex := i.inIndex, outIndex := i.outIndex }

/-- The step mapping.  Accessing the maneuver or the intersections of a step
that lacks them throws; a thrown TypeError is modelled as `Except.error`. -/
def normalizeStep (s : RawStep) : Except Unit EvStep :=
  match s.maneuver, s.intersections with
  | some m, some inters =>
      .ok { distance := s.distance, duration := s.duration
            geometry := s.geometry, name := s.name, mode := s.mode
            maneuver := { location := m.location
                          bearingBefore := m.bearing_before
                          bearingAfter := m.bearing_after
                          type := m.type, modifier := m.modifier
                          instruction := m.instruction }
            intersections := inters.map normalizeIntersection }
  | _, _ => .error ()

/-- The leg mapping (`route.legs.map`): `leg.steps.map` throws when `steps`
is absent. -/
def normalizeLeg (l : RawLeg) : Except Unit EvLeg :=
  match l.steps with
  | none => .error ()
  | some steps => do
      let steps2 ← steps.mapM normalizeStep
      .ok { distance := l.distance, duration := l.duration
            summary := l.summary.getD ""
            steps := steps2
            annot := l.annot.map fun a =>
              { distance := a.distance, duration := a.duration
                speed := a.speed, stateOfCharge := a.state_of_charge } }

/-- Mapping of the whole `legs` array; an absent `legs` throws. -/
def normalizeLegs : Option (List RawLeg) → Except Unit (List EvLeg)
  | none => .error ()
  | some ls => ls.mapM normalizeLeg

/-- The `waypointsSource` expression `data.waypoints || route.waypoints || []`
(arrays are truthy in JavaScript even when empty, so only absence falls
through). -/
def waypointsSource (d : RawData) (route : RawRoute) : List RawWaypoint :=
  d.waypoints.getD (route.waypoints.getD [])

/-- Embedding of `calculateEvRoute` (src/services/mapbox/evRouting.ts).
Every failure — the fetch rejecting, a non-2xx response (the function throws
`errorData.error`), or a TypeError raised while mapping a malformed route —
is caught by the surrounding `try`/`catch`, which returns `null`; a response
with an absent or empty `routes` array returns `null` directly. -/
def calculateEvRoute : FetchResult → Option EvRoute
  | .networkError => none
  | .httpError _ _ => none
  | .ok data =>
    match data.routes with
    | none => none
    | some [] => none
    | some (route :: _) =>
      let ws := waypointsSource data route
      match normalizeLegs route.legs with
      | .error _ => none
      | .ok legs =>
          some { distance := route.distance
                 duration := route.duration
                 geometry := route.geometry
                 legs := legs
                 waypoints := ws.map normalizeWaypoint
                 chargingWaypoints := ws.filterMap chargingOfRaw }

/-- Embedding of `calculateTotalChargingTime` (evRouting.ts): sum of
`chargeTime` over `chargingWaypoints`, starting from 0. -/
def calculateTotalChargingTime (r : EvRoute) : Int :=
  r.chargingWaypoints.foldl (fun t w => t + w.chargeTime) 0

/-- Embedding of the connector-type mapping of the API route handler
(src/app/api/routes/ev/route.ts, the `validConnectorTypes` map): the
ConnectorTypeMapper of the spec.  It is applied to the requested
`connector_types` query parameter, element by element. -/
def mapConnectorType (t : String) : String :=
  if t = "type1" ∨ t = "j1772" then "ccs_combo_type1"
  else if t = "type2" ∨ t = "mennekes" then "ccs_combo_type2"
  else if t = "ccs_type1" then "ccs_combo_type1"
  else if t = "ccs_type2" then "ccs_combo_type2"
  else if t = "ccs_combo_type1" ∨ t = "ccs_combo_type2" ∨ t = "tesla" ∨ t = "chademo" then t
  else "ccs_combo_type2"

/-! ## Part B: station cache and viewport fetch coordinator (MapWrapper.tsx) -/

/-- Charging-station record (interface `ChargingStation` of
src/services/mapbox/types.ts).  `lat` and `lng` are integer micro-degrees. -/
structure ChargingStation where
  id : String
  lat : Int
  lng : Int
  name : String
  chargerType : List String
  powerLevel : Int
  network : String
  available : Bool
  address : String
  city : Option String
  state : Option String
  postalCode : Option String
  country : Option String
  distance : Option Int
deriving DecidableEq

/-- Left-pads a decimal numeral to six digits. -/
def zeroPad6 (n : Nat) : String :=
  let s := toString n
  String.mk (List.replicate (6 - s.length) '0') ++ s

/-- Decimal rendering of a non-negative micro-degree value with six decimal
places. -/
def natFixed6 (n : Nat) : String :=
  toString (n / 1000000) ++ "." ++ zeroPad6 (n % 1000000)

/-- Model of JavaScript `toFixed(6)` on a coordinate held as integer
micro-degrees (exact on such values). -/
def toFixed6 (x : Int) : String :=
  if x < 0 then "-" ++ natFixed6 x.natAbs else natFixed6 x.toNat

/-- Composite cache key of a station, as built in `fetchStations`:
`cacheKey = station.id + "_" + locationHash` with
`locationHash = lat.toFixed(6) + "," + lng.toFixed(6)`. -/
def cacheKeyOf (s : ChargingStation) : String :=
  s.id ++ "_" ++ toFixed6 s.lat ++ "," ++ toFixed6 s.lng

/-- The `stationsCache` object: an insertion-ordered association list with
pairwise distinct keys. -/
abbrev Cache : Type := List (String × ChargingStation)

/-- Property lookup `cache[key]` on the cache object. -/
def cacheFind : Cache → String → Option ChargingStation
  | [], _ => none
  | (k, v) :: rest, key => if k = key then some v else cacheFind rest key

/-- Property assignment `obj[key] = v` on an insertion-ordered object:
replaces in place when the key exists, appends otherwise. -/
def cacheAssign : Cache → String → ChargingStation → Cache
  | [], key, v => [(key, v)]
  | (k, w) :: rest, key, v =>
      if k = key then (k, v) :: rest else (k, w) :: cacheAssign rest key v

/-- The `fetchedStations.forEach` accumulation of `fetchStations`: builds the
`newStations` object, adding a station under its composite key only when the
key is absent from the `stationsCache` snapshot seen by the callback
(`guard`).  Later same-key batch elements overwrite earlier ones inside
`newStations`, exactly as repeated object assignment does. -/
def buildNewStations (guard : Cache) (batch : List ChargingStation) : Cache :=
  batch.foldl
    (fun acc s =>
      if (cacheFind guard (cacheKeyOf s)).isSome then acc
      else cacheAssign acc (cacheKeyOf s) s)
    []

/-- Object spread `{...prev, ...upd}`: keys of `prev` in order with values
overridden by `upd` where present, followed by the keys of `upd` absent from
`prev`, in the order of `upd`. -/
def spreadMerge (prev upd : Cache) : Cache :=
  (prev.map fun kv =>
      match cacheFind upd kv.1 with
      | some v => (kv.1, v)
      | none => kv)
    ++ upd.filter fun kv => (cacheFind prev kv.1).isNone

/-- Single sequential merge of a fetched batch into the cache, as performed
by `fetchStations` when no other fetch overlaps: the dedup guard and the
spread target are the same cache.  When `newStations` stays empty
(`cacheUpdated` false), `setStationsCache` is not called. -/
def mergeStations (cache : Cache) (batch : List ChargingStation) : Cache :=
  let ns := buildNewStations cache batch
  if ns.isEmpty then cache else spreadMerge cache ns

/-- Outcome of the `/api/charging-stations` request as observed by
`fetchChargingStations` (src/services/mapbox/chargingStations.ts): a parsed
station array, a non-2xx response, or a rejected fetch. -/
inductive StationsOutcome where
  | success (stations : List ChargingStation) : StationsOutcome
  | httpError (status : Nat) : StationsOutcome
  | networkError : StationsOutcome
deriving DecidableEq

/-- Embedding of `fetchChargingStations`: a non-2xx response makes the
function throw, a network failure rejects, and in both cases its own
`catch` swallows the error and returns the empty array; it never rejects
towards its caller. -/
def fetchChargingStations : StationsOutcome → List ChargingStation
  | .success stations => stations
  | .httpError _ => []
  | .networkError => []

/-- Decides whether a collaborator outcome is a transport or provider
failure. -/
def isErrorOutcome : StationsOutcome → Bool
  | .success _ => false
  | .httpError _ => true
  | .networkError => true

/-- Parameters of a station query: `(lat, lng, radius)`. -/
structure FetchParams where
  lat : Int
  lng : Int
  radius : Int
deriving DecidableEq

/-- An armed debounce timer: its fire time (arm time + 800 ms), the captured
query parameters, and the `stationsCache` snapshot closed over by the
callback that will run on fire. -/
structure DebounceTimer where
  fireAt : Nat
  params : FetchParams
  snap : Cache
deriving DecidableEq

/-- An in-flight station fetch: its sequence number, its parameters, and the
`stationsCache` snapshot its continuation closed over. -/
structure InFlight where
  fid : Nat
  params : FetchParams
  snap : Cache
deriving DecidableEq

/-- State of the MapWrapper coordinator.  `errorMsg` is the `error` state
variable; the `isLoading` flag and its 300 ms loading timer are omitted
(they only drive the spinner and no claim concerns them).  `fetchLog`
records every fetch actually issued, in order. -/
structure CoordState where
  cache : Cache
  errorMsg : Option String
  debounce : Option DebounceTimer
  inFlight : List InFlight
  nextFid : Nat
  fetchLog : List (Nat × FetchParams)
deriving DecidableEq

/-- Fresh coordinator state over an initial cache. -/
def initState (c : Cache) : CoordState :=
  { cache := c, errorMsg := none, debounce := none, inFlight := []
    nextFid := 0, fetchLog := [] }

/-- Start of the fetch body (both the immediate path and the fired debounce
callback): `setError(null)` and the `await fetchChargingStations` call,
which leaves a fetch in flight whose continuation closed over `snap`. -/
def startFetch (s : CoordState) (p : FetchParams) (snap : Cache) : CoordState :=
  { s with errorMsg := none
           inFlight := s.inFlight ++ [⟨s.nextFid, p, snap⟩]
           nextFid := s.nextFid + 1
           fetchLog := s.fetchLog ++ [(s.nextFid, p)] }

/-- Fires the armed debounce timer when its fire time has been reached by
`t`.  Firing clears the timer reference and starts the fetch with the
captured parameters and snapshot. -/
def fireDue (s : CoordState) (t : Nat) : CoordState :=
  match s.debounce with
  | some d =>
      if d.fireAt ≤ t then startFetch { s with debounce := none } d.params d.snap
      else s
  | none => s

/-- Entry of `fetchStations(lat, lng, radius, immediate)` at time `t`:
always clears any existing debounce timer; then either fetches right away or
arms an 800 ms debounce timer capturing the current cache snapshot. -/
def fetchStationsCall (s : CoordState) (t : Nat) (p : FetchParams)
    (immediate : Bool) : CoordState :=
  let s1 := { s with debounce := none }
  if immediate then startFetch s1 p s1.cache
  else { s1 with debounce := some ⟨t + 800, p, s1.cache⟩ }

/-- Embedding of `handleMapMove`: a viewport change issues a debounced
`fetchStations` call only when the new zoom is at least 12; below that the
handler does nothing to the fetch machinery. -/
def handleMapMove (s : CoordState) (t : Nat) (lat lng zoom radius : Int) :
    CoordState :=
  if 12 ≤ zoom then fetchStationsCall s t ⟨lat, lng, radius⟩ false else s

/-- Completion of an in-flight fetch: the collaborator resolves with its
(possibly empty) station array, the continuation builds `newStations`
against its captured snapshot and, when non-empty, spreads it over the
current cache via the functional `setStationsCache` update.  The `catch`
branch of `fetchStations` is unreachable here because
`fetchChargingStations` never rejects, so `errorMsg` is untouched. -/
def completeFetch (s : CoordState) (fid : Nat) (o : StationsOutcome) :
    CoordState :=
  match s.inFlight.find? (fun f => f.fid == fid) with
  | none => s
  | some f =>
      let batch := fetchChargingStations o
      let ns := buildNewStations f.snap batch
      let s1 := { s with inFlight := s.inFlight.filter fun g => g.fid != fid }
      if ns.isEmpty then s1 else { s1 with cache := spreadMerge s1.cache ns }

/-- External occurrences driving the coordinator: a map move (handled by
`handleMapMove` with the component's constant `searchRadius`), the immediate
mount-time fetch (the `useEffect` calling `fetchStations(..., true)`), the
arrival of a response for an in-flight fetch, and a pure passage of time. -/
inductive EventKind where
  | mapMove (lat lng zoom : Int) : EventKind
  | mountFetch (lat lng : Int) : EventKind
  | fetchReturn (fid : Nat) (o : StationsOutcome) : EventKind
  | tick : EventKind
deriving DecidableEq

/-- A timed external event (time in milliseconds, nondecreasing along a
trace). -/
structure TimedEvent where
  time : Nat
  kind : EventKind
deriving DecidableEq

/-- Processes one event: first fires a debounce timer that came due at or
before the event's time (the single-threaded event loop runs due timer
callbacks first), then dispatches the event. -/
def stepEvent (radius : Int) (s : CoordState) (e : TimedEvent) : CoordState :=
  let s0 := fireDue s e.time
  match e.kind with
  | .mapMove lat lng zoom => handleMapMove s0 e.time lat lng zoom radius
  | .mountFetch lat lng => fetchStationsCall s0 e.time ⟨lat, lng, radius⟩ true
  | .fetchReturn fid o => completeFetch s0 fid o
  | .tick => s0

/-- Runs the coordinator over a trace of timed events. -/
def runEvents (radius : Int) (s : CoordState) (es : List TimedEvent) :
    CoordState :=
  es.foldl (stepEvent radius) s

/-! ## Shared constants and derived definitions used by the theorems -/

/-- Projection of a normalized waypoint to the charging waypoint it yields
when its metadata marks it as a charging stop (spec: `chargingWaypoints` is
a filtered projection of `waypoints`). -/
def cwOfEvWaypoint (w : EvWaypoint) : Option ChargingWaypoint :=
  match w.metadata with
  | some m =>
      if m.type = some "charging-station" then
        some { type := "charging-station"
               name := m.name
               chargeTime := m.chargeTime
               chargeTo := m.chargeTo
               chargeAtArrival := m.chargeAtArrival
               plugType := m.plugType
               currentType := m.currentType
               powerKw := m.powerKw
               stationId := m.stationId
               providerNames := m.providerNames
               location := w.location }
      else none
  | none => none

/-- Decides whether a raw route fails the leg mapping (a malformed route
whose mapping would throw). -/
def routeParseFails (r : RawRoute) : Bool :=
  match normalizeLegs r.legs with
  | .error _ => true
  | .ok _ => false

/-- Decides whether a fetch outcome makes `calculateEvRoute` land in its
`catch`: a rejected fetch, a non-2xx response, or a malformed first route. -/
def fetchFails : FetchResult → Bool
  | .networkError => true
  | .httpError _ _ => true
  | .ok d =>
    match d.routes with
    | some (r :: _) => routeParseFails r
    | _ => false

/-- Metadata of the spec scenario: a single charging waypoint with
`plug_type: "type2"` and `charge_time: 1800`. -/
def scenarioMeta : RawMetadata :=
  { type := some "charging-station", name := "Demo Charger"
    charge_time := 1800, charge_to := 63000, charge_at_arrival := 10500
    plug_type := "type2", current_type := some "dc", power_kw := 150
    station_id := "station-1", provider_names := some ["ProviderX"] }

/-- The scenario waypoint. -/
def scenarioWp : RawWaypoint :=
  { name := "wp0", location := (-74006000, 40712800), metadata := some scenarioMeta }

/-- A well-formed raw route with no legs to map. -/
def scenarioRawRoute : RawRoute :=
  { distance := 1000, duration := 3600, geometry := "geom"
    legs := some [], waypoints := none }

/-- The scenario provider response. -/
def scenarioData : RawData :=
  { routes := some [scenarioRawRoute], waypoints := some [scenarioWp] }

/-- The charging waypoint `calculateEvRoute` extracts from the scenario
response. -/
def scenarioCW : ChargingWaypoint :=
  { type := "charging-station", name := "Demo Charger"
    chargeTime := 1800, chargeTo := 63000, chargeAtArrival := 10500
    plugType := "type2", currentType := "dc", powerKw := 150
    stationId := "station-1", providerNames := some ["ProviderX"]
    location := (-74006000, 40712800) }

/-- The route `calculateEvRoute` produces from the scenario response. -/
def scenarioEvRoute : EvRoute :=
  { distance := 1000, duration := 3600, geometry := "geom", legs := []
    waypoints := [normalizeWaypoint scenarioWp]
    chargingWaypoints := [scenarioCW] }

/-- A response reporting zero routes. -/
def noRoutesData : RawData := { routes := some [], waypoints := none }

/-- A response whose first route lacks its `legs` array: mapping it throws a
TypeError inside the `try` block. -/
def malformedData : RawData :=
  { routes := some [{ distance := 10, duration := 20, geometry := "g"
                      legs := none, waypoints := none }]
    waypoints := none }

/-- Concrete station used in the cache scenarios (id `A`, coordinates
40.712800, -74.006000 as micro-degrees). -/
def stA : ChargingStation :=
  { id := "A", lat := 40712800, lng := -74006000, name := "Station A"
    chargerType := ["ccs_combo_type2"], powerLevel := 150, network := "NetX"
    available := true, address := "1 Main St", city := none, state := none
    postalCode := none, country := none, distance := none }

/-- A second concrete station with a distinct cache key. -/
def stB : ChargingStation :=
  { id := "B", lat := 40800000, lng := -74100000, name := "Station B"
    chargerType := ["chademo"], powerLevel := 50, network := "NetY"
    available := true, address := "2 Side St", city := none, state := none
    postalCode := none, country := none, distance := none }

/-- A station with the same id and coordinates as `stA` but a different
payload, exercising first-write-wins. -/
def stA2 : ChargingStation :=
  { stA with name := "Station A renamed", powerLevel := 350 }

/-- Trace for the zoom-gating scenario: a pan at zoom 15 arms a debounce
timer, a pan to zoom 10 follows 200 ms later, then time passes beyond the
timer's deadline. -/
def c3trace : List TimedEvent :=
  [⟨0, .mapMove 10 20 15⟩, ⟨200, .mapMove 30 40 10⟩, ⟨1200, .tick⟩]

/-- First two events of `c3trace`. -/
def c3prefix : List TimedEvent :=
  [⟨0, .mapMove 10 20 15⟩, ⟨200, .mapMove 30 40 10⟩]

/-- Overlapping-fetch trace, fetch-arming part: a pan at t=0 whose fetch
fires at t=800, a second pan at t=900 whose fetch fires at t=1700 while the
first response is still outstanding. -/
def c2prefix : List TimedEvent :=
  [⟨0, .mapMove 1 1 12⟩, ⟨800, .tick⟩, ⟨900, .mapMove 2 2 12⟩, ⟨1700, .tick⟩]

/-- Full overlapping-fetch trace: the newer fetch's response arrives first,
then the stale response for the superseded viewport arrives and is merged. -/
def c2trace : List TimedEvent :=
  c2prefix ++ [⟨1800, .fetchReturn 1 (.success [stB])⟩,
               ⟨1900, .fetchReturn 0 (.success [stA])⟩]

/-- Initial cache for the collaborator-error scenario. -/
def c5cache : Cache := [(cacheKeyOf stB, stB)]

/-- Collaborator-error trace: an immediate mount fetch whose response is a
non-2xx failure. -/
def c5trace : List TimedEvent :=
  [⟨0, .mountFetch 5 6⟩, ⟨100, .fetchReturn 0 (.httpError 500)⟩]

/-- Overlapping-merge trace: two immediate fetches start before either
response arrives, so both continuations capture the empty cache snapshot;
the first response carries `stA`, the second carries `stA2` — same composite
key, different payload. -/
def c7trace : List TimedEvent :=
  [⟨0, .mountFetch 5 6⟩, ⟨10, .mountFetch 5 6⟩,
   ⟨100, .fetchReturn 0 (.success [stA])⟩,
   ⟨200, .fetchReturn 1 (.success [stA2])⟩]

/-! ## Helper lemmas -/

/-- Normalizing a waypoint and then projecting out its charging stop agrees
with the direct extraction done by the `forEach` loop. -/
theorem cwOfEv_normalizeWaypoint (w : RawWaypoint) :
    cwOfEvWaypoint (normalizeWaypoint w) = chargingOfRaw w := by
  obtain ⟨n, loc, md⟩ := w
  cases md with
  | none => rfl
  | some m =>
      by_cases ht : m.type = some "charging-station" <;>
        simp [cwOfEvWaypoint, normalizeWaypoint, chargingOfRaw, ht]

/-! ## C1 -/

/-- C1, counterexample: the scenario response (single charging waypoint with
`plug_type: "type2"`, `charge_time: 1800`) normalizes to a charging waypoint
whose `plugType` is the raw string `"type2"`, not the canonical
`"ccs_combo_type2"` that the ConnectorTypeMapper (embedded as
`mapConnectorType`, from the API route handler) would produce: the claim
that `normalize` canonicalizes `plugType` is false on the code. -/
theorem plugType_not_canonical_counterexample :
    (calculateEvRoute (.ok scenarioData)).map
        (fun r => r.chargingWaypoints.map fun c => c.plugType) = some ["type2"]
    ∧ mapConnectorType "type2" = "ccs_combo_type2"
    ∧ ("type2" : String) ≠ "ccs_combo_type2" := by
  refine ⟨rfl, rfl, by decide⟩

/-- C1, amended: `calculateEvRoute` copies a charging waypoint's `plug_type`
into `plugType` verbatim (the connector-type canonicalization of the API
route applies only to the requested connector types, not to response
waypoints); the scenario response normalizes to exactly one charging
waypoint with `plugType == "type2"` and total charging time 1800 seconds. -/
theorem plugType_copied_verbatim (w : RawWaypoint) (m : RawMetadata)
    (cw : ChargingWaypoint) (hm : w.metadata = some m)
    (hc : chargingOfRaw w = some cw) :
    cw.plugType = m.plug_type
    ∧ (calculateEvRoute (.ok scenarioData)).map
        (fun r => (r.chargingWaypoints.map fun c => c.plugType,
                   calculateTotalChargingTime r))
      = some (["type2"], 1800) := by
  refine ⟨?_, rfl⟩
  simp only [chargingOfRaw, hm] at hc
  by_cases ht : m.type = some "charging-station"
  · rw [if_pos ht] at hc
    cases hc
    rfl
  · rw [if_neg ht] at hc
    cases hc

/-- C1 witness: the amended fact applied to the scenario waypoint. -/
theorem plugType_copied_verbatim_witness :
    scenarioCW.plugType = scenarioMeta.plug_type
    ∧ (calculateEvRoute (.ok scenarioData)).map
        (fun r => (r.chargingWaypoints.map fun c => c.plugType,
                   calculateTotalChargingTime r))
      = some (["type2"], 1800) :=
  plugType_copied_verbatim scenarioWp scenarioMeta scenarioCW rfl rfl

/-! ## C8 -/

/-- C8: for every route produced by `calculateEvRoute`, `chargingWaypoints`
is exactly the order-preserving filtered projection of `waypoints`: the
charging stops extracted from the waypoint list, in the same relative
order, never populated independently of `waypoints`. -/
theorem chargingWaypoints_filtered_projection (fr : FetchResult) (r : EvRoute)
    (h : calculateEvRoute fr = some r) :
    r.chargingWaypoints = r.waypoints.filterMap cwOfEvWaypoint := by
  cases fr with
  | networkError => simp [calculateEvRoute] at h
  | httpError s m => simp [calculateEvRoute] at h
  | ok d =>
      simp only [calculateEvRoute] at h
      split at h
      · exact absurd h (by simp)
      · exact absurd h (by simp)
      · rename_i route rest
        split at h
        · exact absurd h (by simp)
        · cases h
          simp only [List.filterMap_map]
          have hfun : cwOfEvWaypoint ∘ normalizeWaypoint = chargingOfRaw :=
            funext cwOfEv_normalizeWaypoint
          rw [hfun]

/-- C8 witness: the projection identity evaluated on the scenario route. -/
theorem chargingWaypoints_filtered_projection_witness :
    calculateEvRoute (.ok scenarioData) = some scenarioEvRoute
    ∧ scenarioEvRoute.chargingWaypoints
        = scenarioEvRoute.waypoints.filterMap cwOfEvWaypoint :=
  ⟨rfl, chargingWaypoints_filtered_projection (.ok scenarioData) scenarioEvRoute rfl⟩

/-! ## C9 -/

/-- C9: a provider response reporting zero routes — `routes` absent or the
empty array — normalizes to `null`; the embedding is a total function, so no
exception is possible, and this `null` is returned directly rather than via
the failure path. -/
theorem zero_routes_null (d : RawData)
    (h : d.routes = none ∨ d.routes = some []) :
    calculateEvRoute (.ok d) = none := by
  rcases h with h | h <;> simp [calculateEvRoute, h]

/-- C9 witness: the zero-routes response. -/
theorem zero_routes_null_witness :
    noRoutesData.routes = some [] ∧ calculateEvRoute (.ok noRoutesData) = none :=
  ⟨rfl, zero_routes_null noRoutesData (Or.inr rfl)⟩

/-! ## C10 -/

/-- C10: every failure of the fetch or of the route mapping — a rejected
fetch, a non-2xx response, or a malformed first route whose leg mapping
throws — is caught and returned as `none`, the very value produced for the
legitimate zero-routes outcome, so the two are indistinguishable at the
public interface; the embedding is total, so `calculateEvRoute` never
throws. -/
theorem failures_return_null (fr : FetchResult) (h : fetchFails fr = true) :
    calculateEvRoute fr = none
    ∧ calculateEvRoute (.ok noRoutesData) = none := by
  refine ⟨?_, rfl⟩
  cases fr with
  | networkError => rfl
  | httpError s m => rfl
  | ok d =>
      obtain ⟨routes, wps⟩ := d
      cases routes with
      | none => simp [fetchFails] at h
      | some l =>
          cases l with
          | nil => simp [fetchFails] at h
          | cons r rest =>
              simp only [fetchFails, routeParseFails] at h
              cases hn : normalizeLegs r.legs with
              | error e => simp [calculateEvRoute, hn]
              | ok legs => rw [hn] at h; simp at h

/-- C10 witness: a route with a missing `legs` array is caught and returns
the same `none` as the zero-routes response. -/
theorem failures_return_null_witness :
    fetchFails (.ok malformedData) = true
    ∧ calculateEvRoute (.ok malformedData) = none
    ∧ calculateEvRoute (.ok noRoutesData) = none := by
  refine ⟨rfl, ?_, ?_⟩
  · exact (failures_return_null (.ok malformedData) rfl).1
  · exact (failures_return_null (.ok malformedData) rfl).2

/-! ## Cache lemmas -/

/-- Object assignment under a different key does not affect a lookup. -/
theorem cacheFind_assign_ne (c : Cache) (key k : String) (v : ChargingStation)
    (h : k ≠ key) : cacheFind (cacheAssign c key v) k = cacheFind c k := by
  induction c with
  | nil => simp [cacheAssign, cacheFind, Ne.symm h]
  | cons kv rest ih =>
      obtain ⟨k0, w0⟩ := kv
      by_cases h0 : k0 = key
      · subst h0
        simp [cacheAssign, cacheFind, Ne.symm h]
      · simp only [cacheAssign, if_neg h0]
        by_cases h1 : k0 = k <;> simp [cacheFind, h1, ih]

/-- Generalized accumulator form: keys present in the guard cache never
enter the `newStations` accumulation. -/
theorem foldlNew_find_none (c : Cache) (k : String)
    (hk : (cacheFind c k).isSome = true) :
    ∀ (batch : List ChargingStation) (acc : Cache),
      cacheFind acc k = none →
      cacheFind
        (batch.foldl
          (fun acc s =>
            if (cacheFind c (cacheKeyOf s)).isSome then acc
            else cacheAssign acc (cacheKeyOf s) s)
          acc) k = none := by
  intro batch
  induction batch with
  | nil => intro acc hacc; exact hacc
  | cons s rest ih =>
      intro acc hacc
      simp only [List.foldl_cons]
      by_cases hs : (cacheFind c (cacheKeyOf s)).isSome = true
      · rw [if_pos hs]; exact ih acc hacc
      · rw [if_neg hs]
        apply ih
        have hne : k ≠ cacheKeyOf s := by
          intro he; rw [he] at hk; exact hs hk
        rw [cacheFind_assign_ne _ _ _ _ hne]; exact hacc

/-- A key already present in the guard cache never appears in
`newStations`. -/
theorem buildNewStations_find_none (c : Cache) (batch : List ChargingStation)
    (k : String) (hk : (cacheFind c k).isSome = true) :
    cacheFind (buildNewStations c batch) k = none :=
  foldlNew_find_none c k hk batch [] rfl

/-- Lookup in a concatenation, key found on the left. -/
theorem cacheFind_append_left (a b : Cache) (k : String) (v : ChargingStation)
    (h : cacheFind a k = some v) : cacheFind (a ++ b) k = some v := by
  induction a with
  | nil => simp [cacheFind] at h
  | cons kv rest ih =>
      obtain ⟨k0, w0⟩ := kv
      by_cases h0 : k0 = k
      · simp only [cacheFind, List.cons_append, if_pos h0] at h ⊢; exact h
      · simp only [cacheFind, List.cons_append, if_neg h0] at h ⊢; exact ih h

/-- Lookup in a concatenation, key absent on the left. -/
theorem cacheFind_append_right (a b : Cache) (k : String)
    (h : cacheFind a k = none) : cacheFind (a ++ b) k = cacheFind b k := by
  induction a with
  | nil => rfl
  | cons kv rest ih =>
      obtain ⟨k0, w0⟩ := kv
      by_cases h0 : k0 = k
      · simp [cacheFind, h0] at h
      · simp only [cacheFind, List.cons_append, if_neg h0] at h ⊢; exact ih h

/-- Lookup in the override part of an object spread. -/
theorem cacheFind_override (prev upd : Cache) (k : String) :
    cacheFind
        (prev.map fun kv =>
          match cacheFind upd kv.1 with
          | some v => (kv.1, v)
          | none => kv) k
      = (cacheFind prev k).map fun v => (cacheFind upd k).getD v := by
  induction prev with
  | nil => rfl
  | cons kv rest ih =>
      obtain ⟨k0, v0⟩ := kv
      by_cases h0 : k0 = k
      · subst h0
        cases hu : cacheFind upd k0 <;> simp [cacheFind, hu]
      · cases hu : cacheFind upd k0 <;> simp [cacheFind, h0, hu, ih]

/-- Lookup in the appended part of an object spread: a key absent from the
spread target is looked up in the update object. -/
theorem cacheFind_filter_pred (prev upd : Cache) (k : String)
    (hp : cacheFind prev k = none) :
    cacheFind (upd.filter fun kv => (cacheFind prev kv.1).isNone) k
      = cacheFind upd k := by
  induction upd with
  | nil => rfl
  | cons kv rest ih =>
      obtain ⟨k0, v0⟩ := kv
      by_cases h0 : k0 = k
      · subst h0
        simp [List.filter_cons, cacheFind, hp]
      · cases hq : (cacheFind prev k0).isNone <;>
          simp [List.filter_cons, hq, cacheFind, h0, ih]

/-- Spread keeps an entry of the target whose key the update lacks. -/
theorem cacheFind_spread_of_some (prev upd : Cache) (k : String)
    (v : ChargingStation) (h : cacheFind prev k = some v)
    (hu : cacheFind upd k = none) :
    cacheFind (spreadMerge prev upd) k = some v := by
  unfold spreadMerge
  apply cacheFind_append_left
  rw [cacheFind_override, h, hu]
  rfl

/-- Spread resolves a key absent from the target in the update object. -/
theorem cacheFind_spread_of_none (prev upd : Cache) (k : String)
    (h : cacheFind prev k = none) :
    cacheFind (spreadMerge prev upd) k = cacheFind upd k := by
  unfold spreadMerge
  rw [cacheFind_append_right]
  · exact cacheFind_filter_pred prev upd k h
  · rw [cacheFind_override, h]; rfl

/-- A merge whose `newStations` accumulation stays empty leaves the cache
untouched (`cacheUpdated` stays false and `setStationsCache` is skipped). -/
theorem merge_noop (c : Cache) (batch : List ChargingStation)
    (h : buildNewStations c batch = []) : mergeStations c batch = c := by
  simp [mergeStations, h]

/-- A sequential merge preserves every entry already present under its key. -/
theorem mergeStations_find_some (c : Cache) (batch : List ChargingStation)
    (k : String) (v : ChargingStation) (h : cacheFind c k = some v) :
    cacheFind (mergeStations c batch) k = some v := by
  unfold mergeStations
  by_cases he : (buildNewStations c batch).isEmpty = true
  · simp only [if_pos he]; exact h
  · simp only [if_neg he]
    exact cacheFind_spread_of_some _ _ _ _ h
      (buildNewStations_find_none c batch k (by simp [h]))

/-! ## C7 -/

/-- C7, counterexample: with two overlapping fetches, both continuations
capture the empty cache snapshot; the first response writes `stA` under its
composite key, and the second — whose stale snapshot predates that write —
passes the dedup guard with a same-key station `stA2`, whereupon the object
spread overwrites the existing entry: the first write did not win and the
entry was updated in place, refuting the claim for overlapping merges. -/
theorem stale_snapshot_overwrite_counterexample :
    cacheFind (runEvents 50 (initState []) (c7trace.take 3)).cache
        (cacheKeyOf stA) = some stA
    ∧ cacheFind (runEvents 50 (initState []) c7trace).cache
        (cacheKeyOf stA) = some stA2
    ∧ stA2 ≠ stA :=
  ⟨rfl, rfl, by decide⟩

/-- C7, amended: across every sequence of sequential, non-overlapping merge
operations — where the dedup guard sees the cache the batch is merged into —
an entry already present under its composite key is never updated,
overwritten, or removed: the first write for a key wins and the cache only
grows.  When fetches overlap, a completion whose captured snapshot predates
an entry can overwrite it (see the counterexample), so the guarantee does
not extend to overlapping merges. -/
theorem cache_append_only (c : Cache) (batches : List (List ChargingStation))
    (k : String) (v : ChargingStation) (h : cacheFind c k = some v) :
    cacheFind (batches.foldl mergeStations c) k = some v := by
  induction batches generalizing c with
  | nil => exact h
  | cons b rest ih =>
      simp only [List.foldl_cons]
      exact ih _ (mergeStations_find_some c b k v h)

/-- C7 witness: a cached entry survives two further merges, one of which
carries a same-key station with a different payload. -/
theorem cache_append_only_witness :
    cacheFind [(cacheKeyOf stA, stA)] (cacheKeyOf stA) = some stA
    ∧ cacheFind (List.foldl mergeStations [(cacheKeyOf stA, stA)] [[stA2], [stB]])
        (cacheKeyOf stA) = some stA :=
  ⟨rfl, cache_append_only [(cacheKeyOf stA, stA)] [[stA2], [stB]]
    (cacheKeyOf stA) stA rfl⟩

/-! ## C6 -/

/-- C6: merging a station twice — in two successive batches or as two
identical elements of one batch — yields the same cache as merging it once,
and the spec's identical-pair batch merges to a cache of size 1 under the
composite id-plus-rounded-coordinates key. -/
theorem merge_idempotent :
    (∀ (c : Cache) (s : ChargingStation),
        mergeStations (mergeStations c [s]) [s] = mergeStations c [s])
    ∧ (∀ (c : Cache) (s : ChargingStation),
        mergeStations c [s, s] = mergeStations c [s])
    ∧ (mergeStations [] [stA, stA]).length = 1 := by
  refine ⟨?_, ?_, rfl⟩
  · intro c s
    by_cases h : (cacheFind c (cacheKeyOf s)).isSome = true
    · have h1 : mergeStations c [s] = c :=
        merge_noop _ _ (by simp [buildNewStations, h])
      rw [h1]
      exact h1
    · have hnone : cacheFind c (cacheKeyOf s) = none := by
        cases hc : cacheFind c (cacheKeyOf s)
        · rfl
        · rw [hc] at h; simp at h
      have hns : buildNewStations c [s] = [(cacheKeyOf s, s)] := by
        simp [buildNewStations, h, cacheAssign]
      have h1 : mergeStations c [s] = spreadMerge c [(cacheKeyOf s, s)] := by
        simp [mergeStations, hns]
      have hfind : cacheFind (mergeStations c [s]) (cacheKeyOf s) = some s := by
        rw [h1, cacheFind_spread_of_none _ _ _ hnone]
        simp [cacheFind]
      exact merge_noop _ _ (by simp [buildNewStations, hfind])
  · intro c s
    by_cases h : (cacheFind c (cacheKeyOf s)).isSome = true
    · rw [merge_noop _ _ (by simp [buildNewStations, h]),
          merge_noop _ _ (by simp [buildNewStations, h])]
    · have e1 : buildNewStations c [s, s] = [(cacheKeyOf s, s)] := by
        simp [buildNewStations, h, cacheAssign]
      have e2 : buildNewStations c [s] = [(cacheKeyOf s, s)] := by
        simp [buildNewStations, h, cacheAssign]
      simp [mergeStations, e1, e2]

/-! ## C4 -/

/-- C4: two non-immediate viewport changes at zoom at least 12 and less than
800 ms apart result in exactly one fetch, carrying the center of the second
change and the constant search radius: the second change cancels and
restarts the debounce timer, which then fires once. -/
theorem debounce_single_trailing_fetch (c : Cache)
    (lat1 lng1 z1 lat2 lng2 z2 R : Int) (t1 t2 T : Nat)
    (h1 : (12 : Int) ≤ z1) (h2 : (12 : Int) ≤ z2)
    (hle : t1 ≤ t2) (hlt : t2 < t1 + 800) (hT : t2 + 800 ≤ T) :
    (runEvents R (initState c)
        [⟨t1, .mapMove lat1 lng1 z1⟩, ⟨t2, .mapMove lat2 lng2 z2⟩,
         ⟨T, .tick⟩]).fetchLog
      = [(0, ⟨lat2, lng2, R⟩)] := by
  have hnf : ¬ (t1 + 800 ≤ t2) := by omega
  simp [runEvents, stepEvent, fireDue, handleMapMove, fetchStationsCall,
        startFetch, initState, h1, h2, hnf, hT]

/-- C4 witness: the spec scenario, two changes 200 ms apart. -/
theorem debounce_single_trailing_fetch_witness :
    (runEvents 50 (initState [])
        [⟨0, .mapMove 10 20 15⟩, ⟨200, .mapMove 30 40 14⟩,
         ⟨1000, .tick⟩]).fetchLog
      = [(0, ⟨30, 40, 50⟩)] :=
  debounce_single_trailing_fetch [] 10 20 15 30 40 14 50 0 200 1000
    (by norm_num) (by norm_num) (by norm_num) (by norm_num) (by norm_num)

/-! ## C3 -/

/-- C3, counterexample: after the pan from zoom 15 to zoom 10, the debounce
timer armed by the first pan is still pending — the low-zoom change did not
cancel it — and once its deadline passes the debounced fetch fires after
all, with the parameters of the zoom-15 change. -/
theorem lowZoom_timer_not_cancelled_counterexample :
    (runEvents 50 (initState []) c3prefix).debounce
        = some ⟨800, ⟨10, 20, 50⟩, []⟩
    ∧ (runEvents 50 (initState []) c3trace).fetchLog ≠ [] :=
  ⟨rfl, by decide⟩

/-- C3, amended: a viewport change whose zoom is strictly below 12 issues no
fetch and arms no timer — the handler leaves the coordinator state exactly
as it was — but it also does not cancel a previously armed debounce timer,
which still fires: after panning from zoom 15 to zoom 10 the previously
armed debounced fetch fires with the zoom-15 parameters. -/
theorem lowZoom_no_fetch_no_cancel (s : CoordState) (t : Nat)
    (lat lng zoom radius : Int) (h : zoom < 12) :
    handleMapMove s t lat lng zoom radius = s
    ∧ (runEvents 50 (initState []) c3trace).fetchLog = [(0, ⟨10, 20, 50⟩)] := by
  constructor
  · have hz : ¬ ((12 : Int) ≤ zoom) := by omega
    simp [handleMapMove, hz]
  · rfl

/-- C3 witness: the amended fact at a concrete low-zoom change. -/
theorem lowZoom_no_fetch_no_cancel_witness :
    handleMapMove (initState []) 0 1 2 10 50 = initState []
    ∧ (runEvents 50 (initState []) c3trace).fetchLog = [(0, ⟨10, 20, 50⟩)] :=
  lowZoom_no_fetch_no_cancel (initState []) 0 1 2 10 50 (by norm_num)

/-! ## C2 -/

/-- C2, evaluation at the failing trace: after the second debounce timer
fires at t=1700 two fetches are in flight at once, and when the stale
response for the superseded viewport (1,1) arrives last, its station is
merged into the cache — the coordinator neither coalesces to a single
in-flight fetch nor discards stale responses. -/
theorem overlapping_fetches_merge_stale :
    (runEvents 50 (initState []) c2prefix).inFlight.length = 2
    ∧ (runEvents 50 (initState []) c2trace).fetchLog
        = [(0, ⟨1, 1, 50⟩), (1, ⟨2, 2, 50⟩)]
    ∧ cacheFind (runEvents 50 (initState []) c2trace).cache (cacheKeyOf stA)
        = some stA :=
  ⟨rfl, rfl, rfl⟩

/-! ## C5 -/

/-- C5, counterexample: a mount-time fetch whose response is a non-2xx
failure leaves the cache unchanged and issues no retry, but surfaces no
user-visible error signal at all — `errorMsg` ends as `none`, not as a
single error message — because `fetchChargingStations` swallows the failure
into an empty station array. -/
theorem collaborator_error_no_signal_counterexample :
    (runEvents 50 (initState c5cache) c5trace).errorMsg = none
    ∧ (runEvents 50 (initState c5cache) c5trace).cache = c5cache
    ∧ (runEvents 50 (initState c5cache) c5trace).fetchLog = [(0, ⟨5, 6, 50⟩)] :=
  ⟨rfl, rfl, rfl⟩

/-- C5, amended: every transport or provider error of the station-query
collaborator leaves the station cache unchanged, triggers no automatic
retry (no new fetch is started), and nothing is thrown past the coordinator
boundary (the model is total) — but no user-visible error signal is
surfaced either: the collaborator converts the failure into an empty batch,
so the coordinator's error path never runs and the error state is
untouched. -/
theorem collaborator_error_leaves_state (s : CoordState) (fid : Nat)
    (o : StationsOutcome) (h : isErrorOutcome o = true) :
    (completeFetch s fid o).cache = s.cache
    ∧ (completeFetch s fid o).errorMsg = s.errorMsg
    ∧ (completeFetch s fid o).fetchLog = s.fetchLog
    ∧ (completeFetch s fid o).nextFid = s.nextFid
    ∧ (completeFetch s fid o).debounce = s.debounce := by
  have hb : fetchChargingStations o = [] := by
    cases o with
    | success l => simp [isErrorOutcome] at h
    | httpError n => rfl
    | networkError => rfl
  cases hf : s.inFlight.find? (fun f => f.fid == fid) with
  | none => simp [completeFetch, hf]
  | some f => simp [completeFetch, hf, hb, buildNewStations]

/-- C5 witness: the amended fact at a concrete failed fetch. -/
theorem collaborator_error_leaves_state_witness :
    (completeFetch (initState c5cache) 0 (.httpError 500)).cache
        = (initState c5cache).cache
    ∧ (completeFetch (initState c5cache) 0 (.httpError 500)).errorMsg
        = (initState c5cache).errorMsg
    ∧ (completeFetch (initState c5cache) 0 (.httpError 500)).fetchLog
        = (initState c5cache).fetchLog
    ∧ (completeFetch (initState c5cache) 0 (.httpError 500)).nextFid
        = (initState c5cache).nextFid
    ∧ (completeFetch (initState c5cache) 0 (.httpError 500)).debounce
        = (initState c5cache).debounce :=
  collaborator_error_leaves_state (initState c5cache) 0 (.httpError 500) rfl
